import Mathlib

/-!
Shallow embedding of hyperion src/timer.c: the interrupt evaluator
(update_cpu_timer), one iteration of the clock/rate sampler thread
(timer_thread) and one iteration of the rubato interval modulator
(rubato_thread), together with theorems checking the specification's
claims about them.
-/

set_option maxRecDepth 4000

/-- Nested-guest (SIE) register shadow: the fields of GUESTREGS that
update_cpu_timer reads or writes.  state370 and stateItmof model
SIE_STATE_BIT_ON(GUESTREGS, M, 370) and SIE_STATE_BIT_ON(GUESTREGS, M, ITMOF);
itimerWake models the result of the external chk_int_timer(GUESTREGS) call
(Modelled from the spec: chk_int_timer is an external interval-timer check
that reports whether to contribute the wake bit; it does not touch the
clock-comparator or CPU-timer pending flags). -/
structure GuestRegs where
  clkc : Nat
  tod : Nat
  cpuTimer : Int
  clkcPending : Bool
  ptimerPending : Bool
  state370 : Bool
  stateItmof : Bool
  itimerWake : Bool
  deriving DecidableEq, Repr, Inhabited

/-- Host register context of one CPU: the fields of REGS that
update_cpu_timer reads or writes.  tod models TOD_CLOCK(regs), cpuTimer
models CPU_TIMER(regs) (signed), clkcPending and ptimerPending model
IS_IC_CLKC(regs) and IS_IC_PTIMER(regs), arch370 models
(regs.arch_mode == ARCH_370_IDX), itimerWake models the result of the
external chk_int_timer(regs) call (Modelled from the spec, as above),
stopped models (regs.cpustate == CPUSTATE_STOPPED). -/
structure Regs where
  online : Bool
  stopped : Bool
  clkc : Nat
  tod : Nat
  cpuTimer : Int
  clkcPending : Bool
  ptimerPending : Bool
  arch370 : Bool
  itimerWake : Bool
  sieActive : Bool
  guest : GuestRegs
  deriving DecidableEq, Repr, Inhabited

/-- Host-side clock comparator check, timer.c lines 63-72. -/
def stepClkcHost (r : Regs) : Regs × Bool :=
  if r.tod > r.clkc then
    if r.clkcPending then (r, false)
    else ({ r with clkcPending := true }, true)
  else if r.clkcPending then ({ r with clkcPending := false }, false)
  else (r, false)

/-- Guest-side (SIE) clock comparator check, timer.c lines 74-87.
Note the flag is set and the wake bit contributed without edge detection. -/
def stepClkcGuest (r : Regs) : Regs × Bool :=
  if r.sieActive then
    if r.guest.tod > r.guest.clkc then
      ({ r with guest := { r.guest with clkcPending := true } }, true)
    else
      ({ r with guest := { r.guest with clkcPending := false } }, false)
  else (r, false)

/-- Host-side CPU timer check, timer.c lines 94-103. -/
def stepPtimerHost (r : Regs) : Regs × Bool :=
  if r.cpuTimer < 0 then
    if r.ptimerPending then (r, false)
    else ({ r with ptimerPending := true }, true)
  else if r.ptimerPending then ({ r with ptimerPending := false }, false)
  else (r, false)

/-- Guest-side (SIE) CPU timer check, timer.c lines 105-118.
Again without edge detection. -/
def stepPtimerGuest (r : Regs) : Regs × Bool :=
  if r.sieActive then
    if r.guest.cpuTimer < 0 then
      ({ r with guest := { r.guest with ptimerPending := true } }, true)
    else
      ({ r with guest := { r.guest with ptimerPending := false } }, false)
  else (r, false)

/-- Host-side interval timer check, timer.c lines 125-129: only in 370
architecture mode; the external chk_int_timer result says whether the
wake bit is contributed. -/
def stepItimerHost (r : Regs) : Bool :=
  if r.arch370 then r.itimerWake else false

/-- Guest-side interval timer check, timer.c lines 132-143. -/
def stepItimerGuest (r : Regs) : Bool :=
  if r.sieActive && r.guest.state370 && !r.guest.stateItmof then
    r.guest.itimerWake
  else false

/-- One CPU's pass of the scan loop of update_cpu_timer (timer.c lines
50-147): skip offline or stopped CPUs, otherwise run the six checks in
source order; the Bool result says whether the CPU's bit is OR-ed into
intmask. -/
def updateCpu (r : Regs) : Regs × Bool :=
  if !r.online || r.stopped then (r, false)
  else
    let p1 := stepClkcHost r
    let p2 := stepClkcGuest p1.1
    let p3 := stepPtimerHost p2.1
    let p4 := stepPtimerGuest p3.1
    (p4.1, p1.2 || p2.2 || p3.2 || p4.2 || stepItimerHost p4.1 || stepItimerGuest p4.1)

/-- Scan of all CPUs in index order; the second component is the wake
mask, represented positionally (entry i of the list corresponds to bit
regs[i].cpubit of the CPU_BITMAP intmask). -/
def scanCpus : List Regs → List Regs × List Bool
  | [] => ([], [])
  | r :: rs =>
    let p := updateCpu r
    let q := scanCpus rs
    (p.1 :: q.1, p.2 :: q.2)

/-- The part of sysblk read and written by update_cpu_timer: the table
of CPU register contexts.  sysblk.hicpu is the length of the table. -/
structure Sysblk where
  cpus : List Regs
  deriving DecidableEq, Repr, Inhabited

/-- Observable events of one update_cpu_timer call, in program order:
lock acquisition and release of the system-wide interrupt lock
(OBTAIN_INTLOCK / RELEASE_INTLOCK) and the wake signal
(WAKEUP_CPUS_MASK applied to the final intmask). -/
inductive Event where
  | obtainIntlock : Event
  | releaseIntlock : Event
  | wakeupCpusMask : List Bool → Event
  deriving DecidableEq, Repr

/-- update_cpu_timer, timer.c lines 34-155: early return when no CPUs
are configured, otherwise obtain the interrupt lock, scan every CPU,
then (in source order, lines 151-153) signal the woken CPUs and release
the lock.  Returns the new sysblk, the wake mask, and the event trace. -/
def update_cpu_timer (s : Sysblk) : Sysblk × List Bool × List Event :=
  if s.cpus.length = 0 then (s, [], [])
  else
    let p := scanCpus s.cpus
    (⟨p.1⟩, p.2,
      [Event.obtainIntlock, Event.wakeupCpusMask p.2, Event.releaseIntlock])

/-- Characterization of the register context produced by one CPU's scan
pass when the CPU is online and not stopped: both host pending flags are
recomputed from their conditions, and so are the guest flags when a SIE
shadow is active; every other field is unchanged. -/
def updateCpuSpec (r : Regs) : Regs :=
  { r with
    clkcPending := decide (r.tod > r.clkc),
    ptimerPending := decide (r.cpuTimer < 0),
    guest := { r.guest with
      clkcPending :=
        if r.sieActive then decide (r.guest.tod > r.guest.clkc)
        else r.guest.clkcPending,
      ptimerPending :=
        if r.sieActive then decide (r.guest.cpuTimer < 0)
        else r.guest.ptimerPending } }

/-- Characterization of one CPU's wake-bit contribution: a host-side
0-to-1 edge on either flag, or (eagerly, without edge detection) a true
guest-side condition, or an interval-timer contribution. -/
def wakeCond (r : Regs) : Bool :=
  if !r.online || r.stopped then false
  else
    (decide (r.tod > r.clkc) && !r.clkcPending)
    || (r.sieActive && decide (r.guest.tod > r.guest.clkc))
    || (decide (r.cpuTimer < 0) && !r.ptimerPending)
    || (r.sieActive && decide (r.guest.cpuTimer < 0))
    || stepItimerHost r || stepItimerGuest r

theorem updateCpu_skip (r : Regs) (h : r.online = false ∨ r.stopped = true) :
    updateCpu r = (r, false) := by
  rcases h with h | h <;> simp [updateCpu, h]

theorem stepClkcHost_eq (r : Regs) :
    stepClkcHost r = ({ r with clkcPending := decide (r.tod > r.clkc) },
      decide (r.tod > r.clkc) && !r.clkcPending) := by
  obtain ⟨onl, st, clkc, tod, ct, cp, pp, a3, itw, sie, g⟩ := r
  unfold stepClkcHost
  split_ifs with h1 h2 h3 <;> simp_all

theorem stepClkcGuest_eq (r : Regs) :
    stepClkcGuest r = ({ r with guest := { r.guest with clkcPending :=
        (if r.sieActive then decide (r.guest.tod > r.guest.clkc)
          else r.guest.clkcPending) } },
      r.sieActive && decide (r.guest.tod > r.guest.clkc)) := by
  obtain ⟨onl, st, clkc, tod, ct, cp, pp, a3, itw, sie, g⟩ := r
  obtain ⟨gclkc, gtod, gct, gcp, gpp, g3, gitm, gitw⟩ := g
  unfold stepClkcGuest
  split_ifs with h1 h2 <;> simp_all

theorem stepPtimerHost_eq (r : Regs) :
    stepPtimerHost r = ({ r with ptimerPending := decide (r.cpuTimer < 0) },
      decide (r.cpuTimer < 0) && !r.ptimerPending) := by
  obtain ⟨onl, st, clkc, tod, ct, cp, pp, a3, itw, sie, g⟩ := r
  unfold stepPtimerHost
  split_ifs with h1 h2 h3 <;> simp_all

theorem stepPtimerGuest_eq (r : Regs) :
    stepPtimerGuest r = ({ r with guest := { r.guest with ptimerPending :=
        (if r.sieActive then decide (r.guest.cpuTimer < 0)
          else r.guest.ptimerPending) } },
      r.sieActive && decide (r.guest.cpuTimer < 0)) := by
  obtain ⟨onl, st, clkc, tod, ct, cp, pp, a3, itw, sie, g⟩ := r
  obtain ⟨gclkc, gtod, gct, gcp, gpp, g3, gitm, gitw⟩ := g
  unfold stepPtimerGuest
  split_ifs with h1 h2 <;> simp_all

theorem updateCpu_eq (r : Regs) (h1 : r.online = true) (h2 : r.stopped = false) :
    updateCpu r = (updateCpuSpec r, wakeCond r) := by
  simp only [updateCpu, h1, h2, Bool.not_true, Bool.false_or, if_neg,
    stepClkcHost_eq, stepClkcGuest_eq, stepPtimerHost_eq, stepPtimerGuest_eq,
    updateCpuSpec, wakeCond, stepItimerHost, stepItimerGuest]
  simp

theorem updateCpu_snd (r : Regs) : (updateCpu r).2 = wakeCond r := by
  by_cases h1 : r.online = true
  · by_cases h2 : r.stopped = true
    · rw [updateCpu_skip r (Or.inr h2)]; simp [wakeCond, h2]
    · rw [updateCpu_eq r h1 (by simpa using h2)]
  · rw [updateCpu_skip r (Or.inl (by simpa using h1))]
    simp only [wakeCond]
    rw [if_pos]
    simp_all

theorem scanCpus_fst : ∀ l : List Regs,
    (scanCpus l).1 = l.map fun r => (updateCpu r).1
  | [] => rfl
  | r :: rs => by simp [scanCpus, scanCpus_fst rs]

theorem scanCpus_snd : ∀ l : List Regs,
    (scanCpus l).2 = l.map fun r => (updateCpu r).2
  | [] => rfl
  | r :: rs => by simp [scanCpus, scanCpus_snd rs]

theorem getD_map_of_lt {α β : Type} (f : α → β) (da : α) (db : β) :
    ∀ (l : List α) (i : Nat), i < l.length → (l.map f).getD i db = f (l.getD i da)
  | a :: l, 0, _ => rfl
  | a :: l, i + 1, h => by
    simpa using getD_map_of_lt f da db l i (by simpa using h)

/-- New register table produced by one update_cpu_timer call on a
nonempty configuration. -/
theorem update_cpus_eq (s : Sysblk) (h : ¬ s.cpus.length = 0) :
    (update_cpu_timer s).1.cpus = s.cpus.map fun r => (updateCpu r).1 := by
  simp [update_cpu_timer, h, scanCpus_fst]

/-- Wake mask produced by one update_cpu_timer call, for any
configuration. -/
theorem update_mask_eq (s : Sysblk) :
    (update_cpu_timer s).2.1 = s.cpus.map wakeCond := by
  by_cases h : s.cpus.length = 0
  · rw [List.length_eq_zero] at h
    simp [update_cpu_timer, h]
  · simp [update_cpu_timer, h, scanCpus_snd, updateCpu_snd]

/-- C1: for every CPU that is online and not in the STOPPED state, after a
single call to update_cpu_timer, that CPU's clkc_pending flag equals the
predicate current_time(cpu) > clock_comparator and its ptimer_pending flag
equals the predicate cpu_timer < 0, exactly at return, for all initial
flag values. -/
theorem c1_host_flags_exact (s : Sysblk) (i : Nat) (hi : i < s.cpus.length)
    (hon : (s.cpus.getD i default).online = true)
    (hst : (s.cpus.getD i default).stopped = false) :
    ((update_cpu_timer s).1.cpus.getD i default).clkcPending
        = decide ((s.cpus.getD i default).tod > (s.cpus.getD i default).clkc)
    ∧ ((update_cpu_timer s).1.cpus.getD i default).ptimerPending
        = decide ((s.cpus.getD i default).cpuTimer < 0) := by
  rw [update_cpus_eq s (by omega), getD_map_of_lt _ default default s.cpus i hi,
    updateCpu_eq _ hon hst]
  simp [updateCpuSpec]

theorem c1_host_flags_exact_witness :
    let s : Sysblk := ⟨[Regs.mk true false 1 5 (-1) false false false false
      false default]⟩
    0 < s.cpus.length
    ∧ (s.cpus.getD 0 default).online = true
    ∧ (s.cpus.getD 0 default).stopped = false
    ∧ ((update_cpu_timer s).1.cpus.getD 0 default).clkcPending
          = decide ((s.cpus.getD 0 default).tod > (s.cpus.getD 0 default).clkc)
    ∧ ((update_cpu_timer s).1.cpus.getD 0 default).ptimerPending
          = decide ((s.cpus.getD 0 default).cpuTimer < 0) :=
  ⟨by decide, by decide, by decide,
    (c1_host_flags_exact _ 0 (by decide) (by decide) (by decide)).1,
    (c1_host_flags_exact _ 0 (by decide) (by decide) (by decide)).2⟩

/-- Host-side 0-to-1 transition detector for the two host pending flags,
comparing a CPU's register context before and after the call. -/
def hostEdge (rOld rNew : Regs) : Bool :=
  (!rOld.clkcPending && rNew.clkcPending)
    || (!rOld.ptimerPending && rNew.ptimerPending)

/-- C2, counterexample: in a state where a nested-guest shadow is active
with its clock-comparator condition true while the host-side flags are
already set, the wake mask contains the CPU's bit although neither
host-side pending flag made a 0-to-1 transition, so the mask does not
equal the set of host-side transitions. -/
theorem c2_wake_mask_counterexample :
    let s : Sysblk := ⟨[Regs.mk true false 1 5 1 true false false false
      true (GuestRegs.mk 1 5 0 false false false false false)]⟩
    (update_cpu_timer s).2.1 = [true]
    ∧ List.zipWith hostEdge s.cpus (update_cpu_timer s).1.cpus = [false]
    ∧ ¬ (update_cpu_timer s).2.1
        = List.zipWith hostEdge s.cpus (update_cpu_timer s).1.cpus := by
  refine ⟨by decide, by decide, by decide⟩

/-- C2, amended: the wake mask equals, positionally, the set of online
non-stopped CPUs with either a host-side 0-to-1 pending transition, or an
active nested-guest shadow whose clock-comparator or CPU-timer condition
holds (contributed eagerly, without edge detection), or an interval-timer
contribution (wakeCond). -/
theorem c2_wake_mask_amended (s : Sysblk) :
    (update_cpu_timer s).2.1 = s.cpus.map wakeCond :=
  update_mask_eq s

/-- Lock-state scan of an event trace: returns true when no wakeup event
occurs while the interrupt lock is held (second argument: lock currently
held). -/
def noWakeWhileLocked : List Event → Bool → Bool
  | [], _ => true
  | Event.obtainIntlock :: es, _ => noWakeWhileLocked es true
  | Event.releaseIntlock :: es, _ => noWakeWhileLocked es false
  | Event.wakeupCpusMask _ :: es, locked => !locked && noWakeWhileLocked es locked

/-- C5, counterexample: in the source the call WAKEUP_CPUS_MASK(intmask)
at timer.c line 151 precedes RELEASE_INTLOCK at line 153, so on a
configuration with one online running CPU whose clock comparator has
expired, the wake signal is issued while the interrupt lock is held. -/
theorem c5_signal_order_counterexample :
    let s : Sysblk := ⟨[Regs.mk true false 1 5 (-1) false false false false
      false default]⟩
    (update_cpu_timer s).2.2
      = [Event.obtainIntlock, Event.wakeupCpusMask [true], Event.releaseIntlock]
    ∧ ¬ noWakeWhileLocked (update_cpu_timer s).2.2 false = true := by
  refine ⟨by decide, by decide⟩

/-- C5, amended: on every configuration with at least one CPU, the wake
signal for the CPUs of the wake mask is issued while the system-wide
interrupt lock is still held, immediately before the lock is released
(never after the release). -/
theorem c5_signal_order_amended (s : Sysblk) (h : ¬ s.cpus.length = 0) :
    (update_cpu_timer s).2.2
      = [Event.obtainIntlock, Event.wakeupCpusMask ((update_cpu_timer s).2.1),
          Event.releaseIntlock] := by
  simp [update_cpu_timer, h]

theorem c5_signal_order_amended_witness :
    let s : Sysblk := ⟨[Regs.mk true false 1 5 (-1) false false true false
      false default]⟩
    ¬ s.cpus.length = 0
    ∧ (update_cpu_timer s).2.2
        = [Event.obtainIntlock, Event.wakeupCpusMask ((update_cpu_timer s).2.1),
            Event.releaseIntlock] :=
  ⟨by decide, c5_signal_order_amended _ (by decide)⟩

/-- C8: every CPU that is offline or in the STOPPED state at the time of
an update_cpu_timer call keeps its whole register context (host and
nested-guest pending flags included) byte-for-byte unchanged, and
contributes no bit to the wake mask. -/
theorem c8_skipped_cpu_unchanged (s : Sysblk) (i : Nat) (hi : i < s.cpus.length)
    (h : (s.cpus.getD i default).online = false
      ∨ (s.cpus.getD i default).stopped = true) :
    (update_cpu_timer s).1.cpus.getD i default = s.cpus.getD i default
    ∧ (update_cpu_timer s).2.1.getD i false = false := by
  constructor
  · rw [update_cpus_eq s (by omega), getD_map_of_lt _ default default s.cpus i hi,
      updateCpu_skip _ h]
  · rw [update_mask_eq s, getD_map_of_lt wakeCond default false s.cpus i hi]
    generalize s.cpus.getD i default = r at h
    rcases h with h | h <;> simp [wakeCond, h]

theorem c8_skipped_cpu_unchanged_witness :
    let s : Sysblk := ⟨[Regs.mk true true 1 5 (-1) false false false false
      false default]⟩
    0 < s.cpus.length
    ∧ ((s.cpus.getD 0 default).online = false
        ∨ (s.cpus.getD 0 default).stopped = true)
    ∧ (update_cpu_timer s).1.cpus.getD 0 default = s.cpus.getD 0 default
    ∧ (update_cpu_timer s).2.1.getD 0 false = false :=
  ⟨by decide, by decide,
    (c8_skipped_cpu_unchanged _ 0 (by decide) (Or.inr (by decide))).1,
    (c8_skipped_cpu_unchanged _ 0 (by decide) (Or.inr (by decide))).2⟩

/-- C9: when no CPUs are configured (sysblk.hicpu is zero),
update_cpu_timer returns immediately: the state is unchanged, the wake
mask is empty, and the event trace is empty, so the interrupt lock is
never acquired and no CPU is signalled. -/
theorem c9_no_cpus_noop (s : Sysblk) (h : s.cpus.length = 0) :
    update_cpu_timer s = (s, [], []) := by
  simp [update_cpu_timer, h]

theorem c9_no_cpus_noop_witness :
    (Sysblk.mk []).cpus.length = 0
    ∧ update_cpu_timer (Sysblk.mk []) = (Sysblk.mk [], [], []) :=
  ⟨by decide, c9_no_cpus_noop ⟨[]⟩ (by decide)⟩

/-- Modulus of the 64-bit unsigned (U64) quantities of the sampler. -/
def W64 : Nat := 2 ^ 64

/-- ETOD_SEC: Modelled from the spec: the measurement period is nominally
one second of host wall-clock time; clock times use the top 64 bits of
the extended TOD clock, one unit of which is 1/16 microsecond, so one
second is 16,000,000 units. -/
def ETOD_SEC : Nat := 16000000

/-- MIPS calculation period, timer.c line 182. -/
def period : Nat := ETOD_SEC

/-- Unsigned 64-bit subtraction (two's complement wraparound) for
operands below W64. -/
def u64sub (a b : Nat) : Nat := (a + W64 - b) % W64

/-- diffrate macro, timer.c lines 187-188, with U64 modular arithmetic:
(((_x) * (_y)) + halfdiff) / diff. -/
def diffrate (x y halfdiff diff : Nat) : Nat :=
  (x * y % W64 + halfdiff) % W64 / diff

/-- Per-CPU fields of REGS read and written by the sampler loop of
timer_thread.  txfPPAHigh models the condition of timer.c lines 271-274:
some host or guest txf_PPA count reached PPA_SOME_HELP_THRESHOLD. -/
structure RateRegs where
  online : Bool
  stopped : Bool
  instcount : Nat
  prevcount : Nat
  siocount : Nat
  siototal : Nat
  waittime : Nat
  waittod : Nat
  waittimeAccumulated : Nat
  mipsrate : Nat
  siosrate : Nat
  cpupct : Nat
  txfPPAHigh : Bool
  deriving DecidableEq, Repr, Inhabited

/-- One CPU's rate recomputation when a measurement period closes,
timer.c lines 220-278: offline CPUs are skipped, stopped CPUs get all
three published rates forced to zero, and otherwise the instruction,
SIO and busy-percentage figures are recomputed and the counters reset. -/
def sampleCpu (diff halfdiff now : Nat) (r : RateRegs) : RateRegs :=
  if r.online = false then r
  else if r.stopped = true then
    { r with mipsrate := 0, siosrate := 0, cpupct := 0 }
  else
    let mips0 := r.instcount
    let sios0 := r.siocount
    let wt0 := r.waittime
    let wt := if r.waittod ≠ 0 then (wt0 + u64sub now r.waittod) % W64 else wt0
    { r with
      instcount := 0,
      prevcount := (r.prevcount + mips0) % W64,
      mipsrate := diffrate mips0 period halfdiff diff,
      siocount := 0,
      siototal := (r.siototal + sios0) % W64,
      siosrate := diffrate sios0 period halfdiff diff,
      waittime := 0,
      waittimeAccumulated := (r.waittimeAccumulated + wt0) % W64,
      waittod := if r.waittod ≠ 0 then now else r.waittod,
      cpupct := min (if diff > wt then diffrate (u64sub diff wt) 100 halfdiff diff
        else 0) 100 }

/-- The part of sysblk read and written by one iteration of the sampler
loop: the previous clock observation (local variable then of
timer_thread), the CPU table, the published system-wide totals, and the
baseline (sysblk.timerint) and modulated (sysblk.txf_timerint) sleep
intervals. -/
structure TimerSysblk where
  thenTod : Nat
  cpus : List RateRegs
  mipsrate : Nat
  siosrate : Nat
  timerint : Nat
  txfTimerint : Nat
  deriving DecidableEq, Repr, Inhabited

/-- One iteration of the while loop of timer_thread, timer.c lines
200-298, given the clock value now returned by update_tod_clock (the
external Clock Source).  Returns the new state and the duration passed
to usleep: txf_PPA starts false each iteration, a period closes when
diff >= period (diff computed by U64 subtraction), and the sleep uses
the modulated interval only when txf_PPA was set during a closed
period. -/
def timer_thread_iter (st : TimerSysblk) (now : Nat) : TimerSysblk × Nat :=
  let diff := u64sub now st.thenTod
  if period ≤ diff then
    let halfdiff := diff / 2
    let cpus2 := st.cpus.map (sampleCpu diff halfdiff now)
    let txfPPA := st.cpus.any fun r => r.online && !r.stopped && r.txfPPAHigh
    ({ st with
        thenTod := now,
        cpus := cpus2,
        mipsrate := cpus2.foldl
          (fun a r => if r.online && !r.stopped then (a + r.mipsrate) % W64 else a) 0,
        siosrate := cpus2.foldl
          (fun a r => if r.online && !r.stopped then (a + r.siosrate) % W64 else a) 0 },
      if txfPPA then st.txfTimerint else st.timerint)
  else (st, st.timerint)

/-- C4, counterexample: timer_thread computes diff = now - then with
unsigned 64-bit subtraction and never compares now against then, so a
backward clock step is not fatal: with then = 10 and now = 5 the wrapped
difference exceeds the period, the iteration continues, and the CPU's
published mipsrate is recomputed (here overwritten from 7 to 0) from the
wrapped difference instead of the loop aborting. -/
theorem c4_clock_regression_counterexample :
    let st : TimerSysblk :=
      ⟨10, [RateRegs.mk true false 5 0 0 0 0 0 0 7 0 0 false], 0, 0, 50, 60⟩
    (5 : Nat) < st.thenTod
    ∧ (st.cpus.getD 0 default).mipsrate = 7
    ∧ ((timer_thread_iter st 5).1.cpus.getD 0 default).mipsrate = 0
    ∧ (timer_thread_iter st 5).1.thenTod = 5 := by
  refine ⟨by decide, by decide, by decide, by decide⟩

/-- C4, amended: a clock value lower than the previous observation is
not detected, aborted on, or surfaced: the difference is taken modulo
2^64, and whenever this wrapped difference reaches the period the
iteration closes a measurement period normally, recomputing all CPU
rates from the wrapped difference. -/
theorem c4_clock_regression_amended (st : TimerSysblk) (now : Nat)
    (h1 : now < st.thenTod) (h2 : st.thenTod < W64)
    (h3 : period ≤ W64 - (st.thenTod - now)) :
    (timer_thread_iter st now).1.thenTod = now
    ∧ (timer_thread_iter st now).1.cpus
        = st.cpus.map (sampleCpu (W64 - (st.thenTod - now))
            ((W64 - (st.thenTod - now)) / 2) now) := by
  have hd : u64sub now st.thenTod = W64 - (st.thenTod - now) := by
    unfold u64sub
    rw [Nat.mod_eq_of_lt (by omega)]
    omega
  simp [timer_thread_iter, hd, h3]

theorem c4_clock_regression_amended_witness :
    let st : TimerSysblk :=
      ⟨10, [RateRegs.mk true false 5 0 0 0 0 0 0 3 0 0 false], 0, 0, 50, 60⟩
    (5 : Nat) < st.thenTod ∧ st.thenTod < W64
    ∧ period ≤ W64 - (st.thenTod - 5)
    ∧ (timer_thread_iter st 5).1.thenTod = 5
    ∧ (timer_thread_iter st 5).1.cpus
        = st.cpus.map (sampleCpu (W64 - (st.thenTod - 5))
            ((W64 - (st.thenTod - 5)) / 2) 5) :=
  ⟨by decide, by decide, by decide,
    (c4_clock_regression_amended _ 5 (by decide) (by decide) (by decide)).1,
    (c4_clock_regression_amended _ 5 (by decide) (by decide) (by decide)).2⟩

/-- Round-half-up division a/b, the rounding rule named by the spec. -/
def roundHalfUp (a b : Nat) : Nat := (2 * a + b) / (2 * b)

/-- C7: the sampler's rate divisions follow round-half-up against the
period length: with inst_count = 1,000,000 and elapsed equal to the
measurement period the computed mips_rate is 1,000,000; with elapsed
equal to twice the period it is round(inst_count / 2) = 500,000; and
sio_rate follows the same rule. -/
theorem c7_rate_rounding (now : Nat) (r : RateRegs)
    (hon : r.online = true) (hst : r.stopped = false)
    (hinst : r.instcount = 1000000) (hsio : r.siocount = 1000000) :
    (sampleCpu period (period / 2) now r).mipsrate = 1000000
    ∧ (sampleCpu (2 * period) (2 * period / 2) now r).mipsrate
        = roundHalfUp 1000000 2
    ∧ roundHalfUp 1000000 2 = 500000
    ∧ (sampleCpu period (period / 2) now r).siosrate = 1000000
    ∧ (sampleCpu (2 * period) (2 * period / 2) now r).siosrate
        = roundHalfUp 1000000 2 := by
  have e1 : diffrate 1000000 period (period / 2) period = 1000000 := by decide
  have e2 : diffrate 1000000 period (2 * period / 2) (2 * period) = 500000 := by
    decide
  have e3 : roundHalfUp 1000000 2 = 500000 := by decide
  have e4 : diffrate 1000000 period period (2 * period) = 500000 := by decide
  simp [sampleCpu, hon, hst, hinst, hsio, e1, e2, e3, e4]

theorem c7_rate_rounding_witness :
    let r : RateRegs := RateRegs.mk true false 1000000 0 1000000 0 0 0 0 0 0 0 false
    r.online = true ∧ r.stopped = false
    ∧ r.instcount = 1000000 ∧ r.siocount = 1000000
    ∧ (sampleCpu period (period / 2) 0 r).mipsrate = 1000000
    ∧ (sampleCpu (2 * period) (2 * period / 2) 0 r).mipsrate
        = roundHalfUp 1000000 2 :=
  ⟨by decide, by decide, by decide, by decide,
    (c7_rate_rounding 0 _ (by decide) (by decide) (by decide) (by decide)).1,
    (c7_rate_rounding 0 _ (by decide) (by decide) (by decide) (by decide)).2.1⟩

/-- C10: in an iteration of the sampler loop that does not close a
measurement period (elapsed < measurement_period), the transactional
relief indicator txf_PPA, reset at the top of the iteration, stays
false, so the loop sleeps for the baseline sysblk.timerint and never for
the modulated sysblk.txf_timerint; the state is untouched. -/
theorem c10_baseline_sleep (st : TimerSysblk) (now : Nat)
    (h : u64sub now st.thenTod < period) :
    (timer_thread_iter st now).2 = st.timerint
    ∧ (timer_thread_iter st now).1 = st := by
  simp [timer_thread_iter, Nat.not_le.mpr h]

theorem c10_baseline_sleep_witness :
    let st : TimerSysblk :=
      ⟨0, [RateRegs.mk true false 5 0 0 0 0 0 0 3 0 0 true], 0, 0, 50, 60⟩
    u64sub 100 st.thenTod < period
    ∧ (timer_thread_iter st 100).2 = st.timerint
    ∧ (timer_thread_iter st 100).1 = st :=
  ⟨by decide,
    (c10_baseline_sleep _ 100 (by decide)).1,
    (c10_baseline_sleep _ 100 (by decide)).2⟩

/-- Division identity behind the diffrate rounding: adding half the
divisor before truncating realizes round-half-up. -/
theorem add_half_div (a b : Nat) (hb : 0 < b) :
    (a + b / 2) / b = (2 * a + b) / (2 * b) := by
  have hqr := Nat.div_add_mod (a + b / 2) b
  have hrlt : (a + b / 2) % b < b := Nat.mod_lt _ hb
  have hb2 := Nat.mod_add_div b 2
  have hmod2 : b % 2 < 2 := Nat.mod_lt _ (by omega)
  set q := (a + b / 2) / b
  set r := (a + b / 2) % b
  have key : 2 * a + b = 2 * r + b % 2 + 2 * b * q := by linarith
  rw [key, Nat.add_mul_div_left _ _ (by omega : 0 < 2 * b),
    Nat.div_eq_of_lt (by omega), Nat.zero_add]

/-- Effective accumulated idle time of one CPU at period close: the
accumulated waittime plus, when a wait is in progress (waittod nonzero),
the portion since the wait began, as in timer.c lines 257-265. -/
def effWait (now : Nat) (r : RateRegs) : Nat :=
  if r.waittod ≠ 0 then r.waittime + (now - r.waittod) else r.waittime

/-- C6, counterexample: the published busy percentage is computed with
64-bit modular arithmetic, so for an elapsed interval of 2^60 clock
units with zero wait time (wait_time <= elapsed as the claim requires)
the multiplication (elapsed - wait_time) * 100 wraps and the published
busy_pct is 4, while the claimed formula min(100, round-half-up(...))
gives 100. -/
theorem c6_busy_pct_counterexample :
    let st : TimerSysblk :=
      ⟨0, [RateRegs.mk true false 0 0 0 0 0 0 0 0 0 55 false], 0, 0, 50, 60⟩
    let now : Nat := 2 ^ 60
    let diff : Nat := u64sub now st.thenTod
    let r : RateRegs := st.cpus.getD 0 default
    period ≤ diff ∧ r.online = true ∧ r.stopped = false
    ∧ effWait now r ≤ diff
    ∧ ((timer_thread_iter st now).1.cpus.getD 0 default).cpupct = 4
    ∧ min 100 (roundHalfUp ((diff - effWait now r) * 100) diff) = 100 := by
  refine ⟨by decide, by decide, by decide, by decide, by decide, by decide⟩

/-- C6, amended: when a measurement period closes, for every online
non-stopped CPU whose effective wait time is at most the elapsed
interval, and whose busy computation does not overflow 64 bits
((elapsed - wait) * 100 + elapsed / 2 < 2^64), the published busy_pct
equals min(100, round-half-up((elapsed - wait) * 100 / elapsed)) with
the wait counter reset to zero; and busy_pct is in [0, 100]
unconditionally in this case. -/
theorem c6_busy_pct_amended (st : TimerSysblk) (now i : Nat)
    (hi : i < st.cpus.length)
    (hp : period ≤ u64sub now st.thenTod)
    (hnow : now < W64)
    (hon : (st.cpus.getD i default).online = true)
    (hst : (st.cpus.getD i default).stopped = false)
    (htod : (st.cpus.getD i default).waittod ≤ now)
    (hwt : effWait now (st.cpus.getD i default) ≤ u64sub now st.thenTod)
    (hov : (u64sub now st.thenTod - effWait now (st.cpus.getD i default)) * 100
        + u64sub now st.thenTod / 2 < W64) :
    ((timer_thread_iter st now).1.cpus.getD i default).cpupct
        = min 100 (roundHalfUp
            ((u64sub now st.thenTod - effWait now (st.cpus.getD i default)) * 100)
            (u64sub now st.thenTod))
    ∧ ((timer_thread_iter st now).1.cpus.getD i default).cpupct ≤ 100
    ∧ ((timer_thread_iter st now).1.cpus.getD i default).waittime = 0 := by
  have hW : W64 = 18446744073709551616 := by norm_num [W64]
  have hperiod : (0 : Nat) < period := by decide
  set diff := u64sub now st.thenTod with hdiff
  have hdW : diff < W64 := by
    rw [hdiff]; unfold u64sub; exact Nat.mod_lt _ (by omega)
  have hdpos : 0 < diff := lt_of_lt_of_le hperiod hp
  have hiter : (timer_thread_iter st now).1.cpus
      = st.cpus.map (sampleCpu diff (diff / 2) now) := by
    simp [timer_thread_iter, ← hdiff, hp]
  rw [hiter, getD_map_of_lt _ default default st.cpus i hi]
  set r := st.cpus.getD i default
  have husub : u64sub now r.waittod = now - r.waittod := by
    unfold u64sub
    rw [hW]
    rw [hW] at hnow
    omega
  have hwteq : (if r.waittod ≠ 0 then (r.waittime + u64sub now r.waittod) % W64
      else r.waittime) = effWait now r := by
    by_cases h : r.waittod ≠ 0
    · have heff : effWait now r = r.waittime + (now - r.waittod) := by
        unfold effWait; rw [if_pos h]
      have hlt2 : r.waittime + (now - r.waittod) < W64 := by
        have h3 := hwt; rw [heff] at h3; omega
      rw [if_pos h, husub, Nat.mod_eq_of_lt hlt2]
      exact heff.symm
    · rw [if_neg h]; unfold effWait; rw [if_neg h]
  have hbody : (sampleCpu diff (diff / 2) now r).cpupct
      = min (if diff > effWait now r
          then diffrate (u64sub diff (effWait now r)) 100 (diff / 2) diff
          else 0) 100
      ∧ (sampleCpu diff (diff / 2) now r).waittime = 0 := by
    rw [sampleCpu, if_neg (by simp [hon]), if_neg (by simp [hst])]
    constructor
    · simp only [hwteq]
    · rfl
  rcases Nat.lt_or_ge (effWait now r) diff with hlt | hge
  · have hsub : u64sub diff (effWait now r) = diff - effWait now r := by
      unfold u64sub
      rw [hW]
      rw [hW] at hdW
      omega
    have hx1 : (diff - effWait now r) * 100 < W64 := by omega
    have hdr : diffrate (diff - effWait now r) 100 (diff / 2) diff
        = roundHalfUp ((diff - effWait now r) * 100) diff := by
      unfold diffrate roundHalfUp
      rw [Nat.mod_eq_of_lt hx1, Nat.mod_eq_of_lt hov]
      exact add_half_div _ _ hdpos
    have h1 : (sampleCpu diff (diff / 2) now r).cpupct
        = min 100 (roundHalfUp ((diff - effWait now r) * 100) diff) := by
      rw [hbody.1, if_pos hlt, hsub, hdr, Nat.min_comm]
    exact ⟨h1, by rw [h1]; exact Nat.min_le_left _ _, hbody.2⟩
  · have heq : effWait now r = diff := le_antisymm hwt hge
    have hz : roundHalfUp ((diff - effWait now r) * 100) diff = 0 := by
      rw [heq, Nat.sub_self, Nat.zero_mul]
      unfold roundHalfUp
      rw [Nat.mul_zero, Nat.zero_add]
      exact Nat.div_eq_of_lt (by omega)
    have h1 : (sampleCpu diff (diff / 2) now r).cpupct
        = min 100 (roundHalfUp ((diff - effWait now r) * 100) diff) := by
      rw [hbody.1, if_neg (by omega), hz]
      simp
    exact ⟨h1, by rw [h1]; exact Nat.min_le_left _ _, hbody.2⟩

theorem c6_busy_pct_amended_witness :
    let st : TimerSysblk :=
      ⟨0, [RateRegs.mk true false 0 0 0 0 4000000 0 0 0 0 55 false], 0, 0, 50, 60⟩
    let now : Nat := 16000000
    let diff : Nat := u64sub now st.thenTod
    let r : RateRegs := st.cpus.getD 0 default
    (0 : Nat) < st.cpus.length ∧ period ≤ diff ∧ now < W64
    ∧ r.online = true ∧ r.stopped = false ∧ r.waittod ≤ now
    ∧ effWait now r ≤ diff
    ∧ (diff - effWait now r) * 100 + diff / 2 < W64
    ∧ ((timer_thread_iter st now).1.cpus.getD 0 default).cpupct
        = min 100 (roundHalfUp ((diff - effWait now r) * 100) diff)
    ∧ ((timer_thread_iter st now).1.cpus.getD 0 default).cpupct ≤ 100
    ∧ ((timer_thread_iter st now).1.cpus.getD 0 default).waittime = 0 :=
  ⟨by decide, by decide, by decide, by decide, by decide, by decide, by decide,
    by decide,
    (c6_busy_pct_amended _ 16000000 0 (by decide) (by decide) (by decide)
      (by decide) (by decide) (by decide) (by decide) (by decide)).1,
    (c6_busy_pct_amended _ 16000000 0 (by decide) (by decide) (by decide)
      (by decide) (by decide) (by decide) (by decide) (by decide)).2.1,
    (c6_busy_pct_amended _ 16000000 0 (by decide) (by decide) (by decide)
      (by decide) (by decide) (by decide) (by decide) (by decide)).2.2⟩

/-- Modelled from the spec: clamp bounds for the adaptive interval.
MAX_TOD_UPDATE_USECS is one second in microseconds (the maximum
interval, minimum frequency, also the numerator of the
intervals_per_second computation); MIN_TOD_UPDATE_USECS is the smallest
expressible update interval of one microsecond. -/
def MIN_TOD_UPDATE_USECS : Int := 1

/-- Modelled from the spec: one second in microseconds, see
MIN_TOD_UPDATE_USECS. -/
def MAX_TOD_UPDATE_USECS : Int := 1000000

/-- MINMAX macro: Modelled from the spec: ensure x remains within the
range lo to hi. -/
def minmaxClamp (x lo hi : Int) : Int :=
  if x < lo then lo else if x > hi then hi else x

/-- Truncation toward zero: the semantics of the C cast from double to
int, over the idealized real-number model of the double computation. -/
noncomputable def ctrunc (x : ℝ) : Int := if x < 0 then ⌈x⌉ else ⌊x⌋

/-- The interval modulation formula of timer.c line 380, over idealized
reals: 286000.0 * log((max_rate + 200.0) / 100.0) - 212180.0. -/
noncomputable def rubatoFormula (maxRate : Nat) : ℝ :=
  286000 * Real.log (((maxRate : ℝ) + 200) / 100) - 212180

/-- New adjusted interval: the formula value cast to int and clamped,
timer.c lines 380-383. -/
noncomputable def rubatoInterval (maxRate : Nat) : Int :=
  minmaxClamp (ctrunc (rubatoFormula maxRate))
    MIN_TOD_UPDATE_USECS MAX_TOD_UPDATE_USECS

/-- One rubato_thread iteration's interval computation from the rolling
window, timer.c lines 352-383: shift the five-slot window, insert the
newest transactions count, take the maximum slot, extrapolate to a
per-second rate (U32 multiply), and apply the clamped formula. -/
noncomputable def rubatoIterInterval (count : List Nat)
    (txfCounter ips : Nat) : Int :=
  rubatoInterval ((count.drop 1 ++ [txfCounter]).foldl max 0 * ips % 2 ^ 32)

theorem ctrunc_mono {x y : ℝ} (h : x ≤ y) : ctrunc x ≤ ctrunc y := by
  unfold ctrunc
  split_ifs with h1 h2
  · exact Int.ceil_mono h
  · have h1a : ⌈x⌉ ≤ 0 := Int.ceil_le.mpr (by push_cast; linarith)
    have h2a : (0 : Int) ≤ ⌊y⌋ := Int.le_floor.mpr (by push_cast; linarith)
    omega
  · linarith
  · exact Int.floor_mono h

theorem minmaxClamp_mono {x y lo hi : Int} (hlh : lo ≤ hi) (h : x ≤ y) :
    minmaxClamp x lo hi ≤ minmaxClamp y lo hi := by
  unfold minmaxClamp
  split_ifs <;> omega

theorem rubatoInterval_zero : rubatoInterval 0 = MIN_TOD_UPDATE_USECS := by
  have hf : rubatoFormula 0 < 0 := by
    unfold rubatoFormula
    have h2 : (((0 : ℕ) : ℝ) + 200) / 100 = 2 := by norm_num
    rw [h2]
    have hl2 := Real.log_two_lt_d9
    linarith
  have hceil : ⌈rubatoFormula 0⌉ ≤ 0 := Int.ceil_le.mpr (by push_cast; linarith)
  unfold rubatoInterval ctrunc
  rw [if_pos hf]
  unfold minmaxClamp MIN_TOD_UPDATE_USECS MAX_TOD_UPDATE_USECS
  rw [if_pos (by omega)]

theorem rubatoInterval_max (r : Nat) (hr : 14700 ≤ r) :
    rubatoInterval r = MAX_TOD_UPDATE_USECS := by
  have hpos : (0 : ℝ) < ((r : ℝ) + 200) / 100 := by positivity
  have h149 : (149 : ℝ) ≤ ((r : ℝ) + 200) / 100 := by
    have hc : (14700 : ℝ) ≤ (r : ℝ) := by exact_mod_cast hr
    linarith
  have hexp5 : Real.exp 5 < 149 := by
    have h5 : Real.exp 1 ^ (5 : ℕ) = Real.exp 5 := by
      rw [Real.exp_one_pow]; norm_num
    have he := Real.exp_one_lt_d9
    have hp : Real.exp 1 ^ (5 : ℕ) < 2.7182818286 ^ (5 : ℕ) :=
      pow_lt_pow_left₀ he (Real.exp_pos 1).le (by norm_num)
    have hnum : (2.7182818286 : ℝ) ^ (5 : ℕ) < 149 := by norm_num
    linarith [h5 ▸ hp]
  have hlog : (5 : ℝ) ≤ Real.log (((r : ℝ) + 200) / 100) :=
    (Real.le_log_iff_exp_le hpos).mpr (by linarith)
  have hform : (1217820 : ℝ) ≤ rubatoFormula r := by
    unfold rubatoFormula
    linarith
  have hnn : ¬ rubatoFormula r < 0 := by linarith
  have hfl : (1217820 : Int) ≤ ⌊rubatoFormula r⌋ :=
    Int.le_floor.mpr (by push_cast; linarith)
  unfold rubatoInterval ctrunc
  rw [if_neg hnn]
  unfold minmaxClamp MIN_TOD_UPDATE_USECS MAX_TOD_UPDATE_USECS
  rw [if_neg (by omega), if_pos (by omega)]

theorem rubatoInterval_mono (r1 r2 : Nat) (h12 : r1 ≤ r2) :
    rubatoInterval r1 ≤ rubatoInterval r2 := by
  have h1 : (0 : ℝ) < ((r1 : ℝ) + 200) / 100 := by positivity
  have h2 : (0 : ℝ) < ((r2 : ℝ) + 200) / 100 := by positivity
  have hle : ((r1 : ℝ) + 200) / 100 ≤ ((r2 : ℝ) + 200) / 100 := by
    have hc : (r1 : ℝ) ≤ (r2 : ℝ) := by exact_mod_cast h12
    linarith
  have hf : rubatoFormula r1 ≤ rubatoFormula r2 := by
    unfold rubatoFormula
    have hlog := (Real.log_le_log_iff h1 h2).mpr hle
    linarith
  exact minmaxClamp_mono (by decide) (ctrunc_mono hf)

/-- C3, counterexample: for a rolling window whose five slots are all
zero, the extrapolated rate is zero, the formula value
286000 * log(2) - 212180 is negative, and the clamped interval is
MIN_TOD_UPDATE_USECS, not MAX_TOD_UPDATE_USECS as the claim states:
the code (matching its own comment at timer.c lines 368-377) reduces the
interval at low transaction rates and raises it at high rates, the
opposite direction of the claim. -/
theorem c3_modulator_counterexample :
    rubatoIterInterval [0, 0, 0, 0, 0] 0 10 = MIN_TOD_UPDATE_USECS
    ∧ MIN_TOD_UPDATE_USECS ≠ MAX_TOD_UPDATE_USECS := by
  constructor
  · have harg : ([0, 0, 0, 0, 0].drop 1 ++ [(0 : Nat)]).foldl max 0 * 10 % 2 ^ 32
        = 0 := by decide
    unfold rubatoIterInterval
    rw [harg]
    exact rubatoInterval_zero
  · decide

/-- C3, amended: the computed interval is monotone nondecreasing in the
extrapolated transaction rate, the opposite direction of the claim: a
rolling window of all zeros yields MIN_TOD_UPDATE_USECS (the clamp's
lower bound), and every rate of at least 14700 transactions per second
yields MAX_TOD_UPDATE_USECS (the clamp's upper bound of one second);
high rates, not low ones, push the interval toward the maximum. -/
theorem c3_modulator_amended (ips r r1 r2 : Nat) (hr : 14700 ≤ r)
    (h12 : r1 ≤ r2) :
    rubatoIterInterval [0, 0, 0, 0, 0] 0 ips = MIN_TOD_UPDATE_USECS
    ∧ rubatoInterval r = MAX_TOD_UPDATE_USECS
    ∧ rubatoInterval r1 ≤ rubatoInterval r2 := by
  refine ⟨?_, rubatoInterval_max r hr, rubatoInterval_mono r1 r2 h12⟩
  have harg : ([0, 0, 0, 0, 0].drop 1 ++ [(0 : Nat)]).foldl max 0 * ips % 2 ^ 32
      = 0 := by
    have hm : ([0, 0, 0, 0, 0].drop 1 ++ [(0 : Nat)]).foldl max 0 = 0 := by decide
    rw [hm, Nat.zero_mul, Nat.zero_mod]
  unfold rubatoIterInterval
  rw [harg]
  exact rubatoInterval_zero

theorem c3_modulator_amended_witness :
    (14700 : Nat) ≤ 14700 ∧ (0 : Nat) ≤ 5
    ∧ (rubatoIterInterval [0, 0, 0, 0, 0] 0 10 = MIN_TOD_UPDATE_USECS
        ∧ rubatoInterval 14700 = MAX_TOD_UPDATE_USECS
        ∧ rubatoInterval 0 ≤ rubatoInterval 5) :=
  ⟨by decide, by decide, c3_modulator_amended 10 14700 0 5 (by decide) (by decide)⟩
